import Mathlib

/-!
Shallow embedding of the command-execution subsystem of the repository
(`src/packages/extension/src/tools/execute_command.ts`), together with the
small model of the terminal session registry the spec describes.

The TypeScript orchestrator is an async function whose external effects are
confirmation prompts, terminal acquisition, process spawning, output-line
events and a completion-vs-timeout race.  The embedding makes these effects
explicit: an `ExecEnv` oracle supplies the outcome of each external
interaction (the configuration flag, the confirmation decision, the output
lines delivered before the result is read, and whether the `completed` flag
had been set once the race settled), and the function additionally returns
the ordered trace of effect events it performed, so that ordering claims
("returns before the race begins", "no session acquired on denial") are
statable.
-/

/-- JavaScript-style whitespace test used by `String.prototype.trim`
(restricted to the ASCII whitespace characters that can occur in terminal
output). -/
def isJsWhitespace (c : Char) : Bool :=
  c = ' ' || c = '\t' || c = '\n' || c = '\r' || c = '\x0b' || c = '\x0c'

/-- Model of JavaScript `String.prototype.trim`: removes leading and trailing
whitespace. -/
def strTrim (s : String) : String :=
  String.mk ((((s.data.dropWhile isJsWhitespace).reverse).dropWhile isJsWhitespace).reverse)

/-- The buffer built by the `line` handler of `execute`
(`result += line + "\n"` for each delivered line, in order). -/
def joinedOutput (lines : List String) : String :=
  lines.foldl (fun acc line => acc ++ line ++ "\n") ""

/-- The spec-side description of the expected output payload: the lines
joined by newlines ("L1..Ln joined by newlines").  Declared to be compared
with what the code builds (`joinedOutput` followed by `strTrim`). -/
def joinWithNewlines : List String → String
  | [] => ""
  | [line] => line
  | line :: rest => line ++ "\n" ++ joinWithNewlines rest

/-- The string `sub` occurs contiguously inside `s`. -/
def containsStr (s sub : String) : Prop :=
  ∃ pre post, s = pre ++ sub ++ post

/-- One terminal session of the Terminal Session Registry: unique identifier,
working-directory path, liveness flag (spec §3, "Session"). -/
structure TerminalInfo where
  id : Nat
  cwd : String
  live : Bool
  deriving DecidableEq, Repr

/-- The pool of reusable sessions keyed by working directory, with a fresh-id
counter. -/
structure TerminalRegistry where
  terminals : List TerminalInfo
  nextId : Nat
  deriving DecidableEq, Repr

/-- Modelled from the spec: `TerminalManager.getOrCreateTerminal` — the
Terminal Session Registry operation `acquireOrCreate(workingDirectory)` (spec §4.1),
whose implementation is outside the source of this subsystem.  Returns an existing
live session bound to the working directory if one exists; otherwise
constructs a new one with a fresh identifier and registers it. -/
def TerminalManager.getOrCreateTerminal (registry : TerminalRegistry) (dir : String) :
    TerminalInfo × TerminalRegistry :=
  match registry.terminals.find? (fun t => t.live && t.cwd == dir) with
  | some t => (t, registry)
  | none =>
    let t : TerminalInfo := { id := registry.nextId, cwd := dir, live := true }
    (t, { terminals := registry.terminals ++ [t], nextId := registry.nextId + 1 })

/-- The response wrapper produced by `formatResponse.toolResult`. -/
structure ToolResponse where
  text : String
  deriving DecidableEq, Repr

/-- Embedding of `formatResponse.toolResult(text)`: wraps plain result text. -/
def formatResponse.toolResult (text : String) : ToolResponse :=
  { text := text }

/-- Outcomes of the external interactions `execute` performs, supplied as an
oracle: the `mcpServer.confirmNonDestructiveCommands` configuration value,
the decision string returned by the confirmation UI (`"Approve"`, `"Deny"`,
or free-text feedback), the output lines delivered by `line` events before
the result buffer is read, and the value of the `completed` flag once the
completion-vs-timeout race has settled. -/
structure ExecEnv where
  confirmNonDestructiveCommands : Bool
  userResponse : String
  outputLines : List String
  completed : Bool
  deriving DecidableEq, Repr

/-- Ordered trace of the external effects `execute` performs. -/
inductive ExecEvent where
  | askConfirmation (command : String)
  | acquireSession (dir : String)
  | showTerminal (id : Nat)
  | runCommand (command : String)
  | raceTimeout (timeout : Int)
  | delay (ms : Nat)
  deriving DecidableEq, Repr

/-- Result of one `execute` call: the effect trace, the registry after the
call, and the `[userRejected, ToolResponse]` tuple of the source. -/
structure ExecuteResult where
  events : List ExecEvent
  registry : TerminalRegistry
  userRejected : Bool
  response : ToolResponse
  deriving DecidableEq, Repr

/-- The text returned when the user does not approve
(`execute_command.ts` line 65). -/
def deniedText (userResponse : String) : String :=
  "Command execution was denied by the user. " ++
    (if userResponse ≠ "Deny" then "Feedback: " ++ userResponse else "")

/-- The text returned in background mode (`execute_command.ts` lines 96-99). -/
def backgroundText (terminalId : Nat) : String :=
  "Command started in background mode and is running in the terminal (id: " ++
    toString terminalId ++ "). " ++
    "You can check the output later using the get_terminal_output tool with this terminal id."

/-- The text returned when the command completed before the timeout
(`execute_command.ts` lines 125-127). -/
def completedText (terminalId : Nat) (result : String) : String :=
  "Command executed in terminal (id: " ++ toString terminalId ++ ")." ++
    (if result ≠ "" then "\nOutput:\n" ++ result else "")

/-- The text returned when the command is still running after the race
(`execute_command.ts` lines 130-137). -/
def stillRunningText (terminalId : Nat) (timeout : Int) (result : String) : String :=
  let timeoutMessage := if timeout ≠ 300000 then " (timeout: " ++ toString timeout ++ "ms)" else ""
  "Command is still running in terminal (id: " ++ toString terminalId ++ ")" ++
    timeoutMessage ++ "." ++
    (if result ≠ "" then "\nHere\x27s the output so far:\n" ++ result else "") ++
    "\n\nYou can check for more output later using the get_terminal_output tool with this terminal id."

/-- The effective working directory: `customCwd || this.cwd` of line 73 —
JavaScript treats both an absent and an empty-string `customCwd` as falsy,
so the override takes effect only when present and non-empty. -/
def effectiveCwd (cwd : String) (customCwd : Option String) : String :=
  match customCwd with
  | some s => if s = "" then cwd else s
  | none => cwd

/-- Lines 73-138 of `execute`: acquire/create the session for the effective
working directory, show it, run the command; in background mode return
immediately, otherwise race completion against the timeout, wait the 50 ms
grace delay, trim the buffer and report.  `confirmEvents` is the trace of
the confirmation phase that preceded this point. -/
def ExecuteCommandTool.runPhase (registry : TerminalRegistry) (env : ExecEnv)
    (command : String) (dir : String) (background : Bool) (timeout : Int)
    (confirmEvents : List ExecEvent) : ExecuteResult :=
  let acq := TerminalManager.getOrCreateTerminal registry dir
  let terminalInfo := acq.1
  let registry1 := acq.2
  let startEvents := confirmEvents ++
    [ExecEvent.acquireSession dir, ExecEvent.showTerminal terminalInfo.id,
      ExecEvent.runCommand command]
  if background then
    { events := startEvents, registry := registry1, userRejected := false,
      response := formatResponse.toolResult (backgroundText terminalInfo.id) }
  else
    let result := strTrim (joinedOutput env.outputLines)
    let terminalId := terminalInfo.id
    if env.completed then
      { events := startEvents ++ [ExecEvent.raceTimeout timeout, ExecEvent.delay 50],
        registry := registry1, userRejected := false,
        response := formatResponse.toolResult (completedText terminalId result) }
    else
      { events := startEvents ++ [ExecEvent.raceTimeout timeout, ExecEvent.delay 50],
        registry := registry1, userRejected := false,
        response := formatResponse.toolResult (stillRunningText terminalId timeout result) }

/-- Embedding of `ExecuteCommandTool.execute` (lines 41-139): decide whether to confirm
(`modifySomething || confirmNonDestructiveCommands`); on a decision other
than `"Approve"` return the denial result with the rejection boolean of the tuple
`false`; otherwise run the command via `runPhase`. -/
def ExecuteCommandTool.execute (cwd : String) (registry : TerminalRegistry) (env : ExecEnv)
    (command : String) (customCwd : Option String)
    (modifySomething : Bool) (background : Bool) (timeout : Int) : ExecuteResult :=
  let shouldConfirm := modifySomething || env.confirmNonDestructiveCommands
  if shouldConfirm then
    if env.userResponse ≠ "Approve" then
      { events := [ExecEvent.askConfirmation command], registry := registry,
        userRejected := false,
        response := formatResponse.toolResult (deniedText env.userResponse) }
    else
      ExecuteCommandTool.runPhase registry env command (effectiveCwd cwd customCwd)
        background timeout [ExecEvent.askConfirmation command]
  else
    ExecuteCommandTool.runPhase registry env command (effectiveCwd cwd customCwd)
      background timeout []

/-- Parameters after boundary validation (`z.infer<typeof executeCommandSchema>`). -/
structure ExecParams where
  command : String
  customCwd : Option String
  modifySomething : Bool
  background : Bool
  timeout : Int
  deriving DecidableEq, Repr

/-- Raw request fields before validation; every optional field may be absent.
`command` is required: a raw request cannot omit it. -/
structure RawExecuteCommandParams where
  command : String
  customCwd : Option String
  modifySomething : Option Bool
  background : Option Bool
  timeout : Option Int
  deriving DecidableEq, Repr

/-- Embedding of `executeCommandSchema` (lines 8-30): zod validation applying the declared
defaults to absent optional fields. -/
def executeCommandSchema.parse (p : RawExecuteCommandParams) : ExecParams :=
  { command := p.command
    customCwd := p.customCwd
    modifySomething := p.modifySomething.getD true
    background := p.background.getD false
    timeout := p.timeout.getD 300000 }

/-- One element of the response `content` array. -/
structure ContentItem where
  text : String
  deriving DecidableEq, Repr

/-- The response shape of the handler: isError plus a content list of text items. -/
structure HandlerResponse where
  isError : Bool
  content : List ContentItem
  deriving DecidableEq, Repr

/-- Embedding of `executeCommandToolHandler` (lines 146-168): reject with `isError = true`
when no workspace root is resolvable; otherwise run the tool and set
`isError` to the negation of the first tuple element
(`const [success, response] = await tool.execute(...)`; `isError: !success`). -/
def executeCommandToolHandler (workspaceRoot : Option String) (registry : TerminalRegistry)
    (env : ExecEnv) (params : ExecParams) : HandlerResponse :=
  match workspaceRoot with
  | none => { isError := true, content := [{ text := "No workspace folder is open" }] }
  | some root =>
    let r := ExecuteCommandTool.execute root registry env params.command params.customCwd
      params.modifySomething params.background params.timeout
    { isError := !r.userRejected, content := [{ text := r.response.text }] }

/-! ### Helper lemmas -/

theorem foldl_line_shift (a : String) (ls : List String) :
    ls.foldl (fun acc line => acc ++ line ++ "\n") a
      = a ++ ls.foldl (fun acc line => acc ++ line ++ "\n") "" := by
  induction ls generalizing a with
  | nil => simp
  | cons l ls ih =>
    simp only [List.foldl_cons]
    rw [ih (a ++ l ++ "\n"), ih ("" ++ l ++ "\n")]
    simp [String.append_assoc]

theorem joinedOutput_cons (l : String) (ls : List String) :
    joinedOutput (l :: ls) = (l ++ "\n") ++ joinedOutput ls := by
  unfold joinedOutput
  simp only [List.foldl_cons]
  rw [foldl_line_shift]
  simp

theorem joinedOutput_eq_joinWithNewlines (ls : List String) (h : ls ≠ []) :
    joinedOutput ls = joinWithNewlines ls ++ "\n" := by
  induction ls with
  | nil => exact absurd rfl h
  | cons l rest ih =>
    cases rest with
    | nil =>
      show joinedOutput [l] = joinWithNewlines [l] ++ "\n"
      simp [joinedOutput, joinWithNewlines]
    | cons l2 rest2 =>
      rw [joinedOutput_cons, ih (by simp)]
      show (l ++ "\n") ++ (joinWithNewlines (l2 :: rest2) ++ "\n")
          = (l ++ "\n" ++ joinWithNewlines (l2 :: rest2)) ++ "\n"
      simp [String.append_assoc]

theorem strTrim_append_newline (s : String) : strTrim (s ++ "\n") = strTrim s := by
  unfold strTrim
  rw [String.data_append]
  show String.mk ((((s.data ++ ['\n']).dropWhile isJsWhitespace).reverse.dropWhile
    isJsWhitespace).reverse) = _
  rw [List.dropWhile_append]
  by_cases h : (s.data.dropWhile isJsWhitespace).isEmpty
  · rw [if_pos h]
    rw [List.isEmpty_iff] at h
    rw [h]
    simp [isJsWhitespace]
  · rw [if_neg h]
    rw [List.reverse_append]
    simp [isJsWhitespace]

theorem strTrim_joinedOutput (ls : List String) :
    strTrim (joinedOutput ls) = strTrim (joinWithNewlines ls) := by
  cases ls with
  | nil => rfl
  | cons l rest => rw [joinedOutput_eq_joinWithNewlines _ (by simp), strTrim_append_newline]

theorem containsStr_intro (pre sub post : String) : containsStr (pre ++ sub ++ post) sub :=
  ⟨pre, post, rfl⟩

theorem rejected_false_aux (cwd : String) (registry : TerminalRegistry) (env : ExecEnv)
    (command : String) (customCwd : Option String) (modifySomething background : Bool)
    (timeout : Int) :
    (ExecuteCommandTool.execute cwd registry env command customCwd modifySomething background
      timeout).userRejected = false := by
  unfold ExecuteCommandTool.execute ExecuteCommandTool.runPhase
  simp only []
  split_ifs <;> rfl

theorem execute_approved_eq (cwd : String) (registry : TerminalRegistry) (env : ExecEnv)
    (command : String) (customCwd : Option String) (modifySomething background : Bool)
    (timeout : Int)
    (happrove : (modifySomething || env.confirmNonDestructiveCommands) = true →
      env.userResponse = "Approve") :
    ExecuteCommandTool.execute cwd registry env command customCwd modifySomething background
        timeout
      = ExecuteCommandTool.runPhase registry env command (effectiveCwd cwd customCwd) background
          timeout
          (if modifySomething || env.confirmNonDestructiveCommands
            then [ExecEvent.askConfirmation command] else []) := by
  unfold ExecuteCommandTool.execute
  by_cases h : (modifySomething || env.confirmNonDestructiveCommands) = true
  · simp [h, happrove h]
  · simp [h]

theorem runPhase_background_eval (registry : TerminalRegistry) (env : ExecEnv)
    (command dir : String) (timeout : Int) (confirmEvents : List ExecEvent) :
    ExecuteCommandTool.runPhase registry env command dir true timeout confirmEvents
      = { events := confirmEvents ++ [ExecEvent.acquireSession dir,
            ExecEvent.showTerminal (TerminalManager.getOrCreateTerminal registry dir).1.id,
            ExecEvent.runCommand command],
          registry := (TerminalManager.getOrCreateTerminal registry dir).2,
          userRejected := false,
          response := formatResponse.toolResult
            (backgroundText (TerminalManager.getOrCreateTerminal registry dir).1.id) } := rfl

theorem runPhase_foreground_eval (registry : TerminalRegistry) (env : ExecEnv)
    (command dir : String) (timeout : Int) (confirmEvents : List ExecEvent) :
    ExecuteCommandTool.runPhase registry env command dir false timeout confirmEvents
      = { events := confirmEvents ++ [ExecEvent.acquireSession dir,
            ExecEvent.showTerminal (TerminalManager.getOrCreateTerminal registry dir).1.id,
            ExecEvent.runCommand command] ++
            [ExecEvent.raceTimeout timeout, ExecEvent.delay 50],
          registry := (TerminalManager.getOrCreateTerminal registry dir).2,
          userRejected := false,
          response := formatResponse.toolResult
            (if env.completed
              then completedText (TerminalManager.getOrCreateTerminal registry dir).1.id
                (strTrim (joinedOutput env.outputLines))
              else stillRunningText (TerminalManager.getOrCreateTerminal registry dir).1.id
                timeout (strTrim (joinedOutput env.outputLines))) } := by
  unfold ExecuteCommandTool.runPhase
  simp only []
  cases h : env.completed <;> simp [h, List.append_assoc]

/-- C2: for every request and every outcome of `ExecuteCommandTool.execute` (denial,
background return, completion, timeout), the first element of the returned tuple — the
rejection boolean — is `false`, including on explicit denial. -/
theorem execute_rejection_boolean_always_false (cwd : String) (registry : TerminalRegistry)
    (env : ExecEnv) (command : String) (customCwd : Option String)
    (modifySomething background : Bool) (timeout : Int) :
    (ExecuteCommandTool.execute cwd registry env command customCwd modifySomething background
      timeout).userRejected = false :=
  rejected_false_aux cwd registry env command customCwd modifySomething background timeout

/-- C1 (behavior the code actually has, contradicting the claim): for every request with a
resolvable workspace root, `executeCommandToolHandler` returns `isError = true` — the handler
negates the always-`false` rejection boolean of the tuple — so the claimed `isError = false` on
handled requests fails everywhere. -/
theorem handler_isError_true_whenever_root_resolvable (root : String)
    (registry : TerminalRegistry) (env : ExecEnv) (params : ExecParams) :
    (executeCommandToolHandler (some root) registry env params).isError = true := by
  unfold executeCommandToolHandler
  simp [rejected_false_aux]

/-- C3: the confirmation prompt is shown iff `modifySomething` is true or the
`confirmNonDestructiveCommands` setting is true. -/
theorem confirmation_prompt_iff (cwd : String) (registry : TerminalRegistry) (env : ExecEnv)
    (command : String) (customCwd : Option String) (modifySomething background : Bool)
    (timeout : Int) :
    ExecEvent.askConfirmation command ∈
        (ExecuteCommandTool.execute cwd registry env command customCwd modifySomething background
          timeout).events
      ↔ (modifySomething = true ∨ env.confirmNonDestructiveCommands = true) := by
  unfold ExecuteCommandTool.execute ExecuteCommandTool.runPhase
  simp only []
  split_ifs with h1 h2 h3 h4 h5 h6 <;> simp_all

/-- C8: acquiring a session is idempotent on the working directory — a second acquisition
for the same working directory returns the same session identifier. -/
theorem getOrCreateTerminal_idempotent (registry : TerminalRegistry) (dir : String) :
    ((TerminalManager.getOrCreateTerminal
        (TerminalManager.getOrCreateTerminal registry dir).2 dir).1).id
      = ((TerminalManager.getOrCreateTerminal registry dir).1).id := by
  unfold TerminalManager.getOrCreateTerminal
  cases h : registry.terminals.find? (fun t => t.live && t.cwd == dir) with
  | some t => simp [h]
  | none => simp [h, List.find?_append]

/-- C9: at the validation boundary, omitted optional fields take exactly these defaults:
`modifySomething = true`, `background = false`, `timeout = 300000`; `command` (and the absent
`customCwd`) pass through unchanged. -/
theorem executeCommandSchema_defaults (command : String) (customCwd : Option String) :
    executeCommandSchema.parse
        { command := command, customCwd := customCwd, modifySomething := none,
          background := none, timeout := none }
      = { command := command, customCwd := customCwd, modifySomething := true,
          background := false, timeout := 300000 } := rfl

/-- C10: a present-but-empty `customCwd` behaves exactly like an absent one — the session is
acquired for the configured workspace root, and every session acquisition performed by such a
call is for the root. -/
theorem empty_customCwd_uses_workspace_root (cwd : String) (registry : TerminalRegistry)
    (env : ExecEnv) (command : String) (modifySomething background : Bool) (timeout : Int) :
    ExecuteCommandTool.execute cwd registry env command (some "") modifySomething background
        timeout
      = ExecuteCommandTool.execute cwd registry env command none modifySomething background
          timeout ∧
    ∀ d, ExecEvent.acquireSession d ∈
        (ExecuteCommandTool.execute cwd registry env command (some "") modifySomething background
          timeout).events → d = cwd := by
  constructor
  · unfold ExecuteCommandTool.execute
    simp [effectiveCwd]
  · intro d hd
    unfold ExecuteCommandTool.execute ExecuteCommandTool.runPhase at hd
    simp only [] at hd
    split_ifs at hd <;> simp_all [effectiveCwd]

/-- C4: with `background = true` (and any required approval granted), `execute` returns
before the completion-vs-timeout race is created and before any waiting: its trace contains
no race and no grace delay, and the returned text is the background message, which contains
the session identifier and the instruction to poll output later. -/
theorem background_returns_before_race (cwd : String) (registry : TerminalRegistry)
    (env : ExecEnv) (command : String) (customCwd : Option String) (modifySomething : Bool)
    (timeout : Int)
    (happrove : (modifySomething || env.confirmNonDestructiveCommands) = true →
      env.userResponse = "Approve") :
    (∀ t, ExecEvent.raceTimeout t ∉
        (ExecuteCommandTool.execute cwd registry env command customCwd modifySomething true
          timeout).events) ∧
    (∀ ms, ExecEvent.delay ms ∉
        (ExecuteCommandTool.execute cwd registry env command customCwd modifySomething true
          timeout).events) ∧
    (ExecuteCommandTool.execute cwd registry env command customCwd modifySomething true
        timeout).response.text
      = "Command started in background mode and is running in the terminal (id: " ++
          toString (TerminalManager.getOrCreateTerminal registry
            (effectiveCwd cwd customCwd)).1.id ++ "). " ++
          "You can check the output later using the get_terminal_output tool with this terminal id." ∧
    containsStr
      (ExecuteCommandTool.execute cwd registry env command customCwd modifySomething true
        timeout).response.text
      (toString (TerminalManager.getOrCreateTerminal registry
        (effectiveCwd cwd customCwd)).1.id) ∧
    containsStr
      (ExecuteCommandTool.execute cwd registry env command customCwd modifySomething true
        timeout).response.text
      "You can check the output later using the get_terminal_output tool with this terminal id." := by
  rw [execute_approved_eq cwd registry env command customCwd modifySomething true timeout
    happrove, runPhase_background_eval]
  refine ⟨?_, ?_, rfl, ?_, ?_⟩
  · intro t
    split <;> simp
  · intro ms
    split <;> simp
  · refine ⟨"Command started in background mode and is running in the terminal (id: ",
      "). " ++
        "You can check the output later using the get_terminal_output tool with this terminal id.",
      ?_⟩
    simp [backgroundText, formatResponse.toolResult, String.append_assoc]
  · refine ⟨"Command started in background mode and is running in the terminal (id: " ++
      toString (TerminalManager.getOrCreateTerminal registry
        (effectiveCwd cwd customCwd)).1.id ++ "). ", "", ?_⟩
    simp [backgroundText, formatResponse.toolResult, String.append_assoc]

/-- Witness for C4 at the spec scenario `{command: "sleep 600", background: true}`. -/
theorem background_returns_before_race_witness :
    ((true || (⟨false, "Approve", [], false⟩ : ExecEnv).confirmNonDestructiveCommands) = true →
      (⟨false, "Approve", [], false⟩ : ExecEnv).userResponse = "Approve") ∧
    ((∀ t, ExecEvent.raceTimeout t ∉
        (ExecuteCommandTool.execute "/workspace" ⟨[], 0⟩ ⟨false, "Approve", [], false⟩
          "sleep 600" none true true 300000).events) ∧
    (∀ ms, ExecEvent.delay ms ∉
        (ExecuteCommandTool.execute "/workspace" ⟨[], 0⟩ ⟨false, "Approve", [], false⟩
          "sleep 600" none true true 300000).events) ∧
    (ExecuteCommandTool.execute "/workspace" ⟨[], 0⟩ ⟨false, "Approve", [], false⟩
        "sleep 600" none true true 300000).response.text
      = "Command started in background mode and is running in the terminal (id: " ++
          toString (TerminalManager.getOrCreateTerminal ⟨[], 0⟩
            (effectiveCwd "/workspace" none)).1.id ++ "). " ++
          "You can check the output later using the get_terminal_output tool with this terminal id." ∧
    containsStr
      (ExecuteCommandTool.execute "/workspace" ⟨[], 0⟩ ⟨false, "Approve", [], false⟩
        "sleep 600" none true true 300000).response.text
      (toString (TerminalManager.getOrCreateTerminal ⟨[], 0⟩
        (effectiveCwd "/workspace" none)).1.id) ∧
    containsStr
      (ExecuteCommandTool.execute "/workspace" ⟨[], 0⟩ ⟨false, "Approve", [], false⟩
        "sleep 600" none true true 300000).response.text
      "You can check the output later using the get_terminal_output tool with this terminal id.") :=
  ⟨fun _ => rfl,
    background_returns_before_race "/workspace" ⟨[], 0⟩ ⟨false, "Approve", [], false⟩
      "sleep 600" none true 300000 (fun _ => rfl)⟩

/-- C5: when the confirmation decision is anything other than `Approve`, `execute` aborts
immediately: its trace is exactly the confirmation prompt — no session is acquired or
created, no process is started, the registry is unchanged — the result is the denial text,
and free-text feedback (a decision other than the plain `Deny`) is embedded verbatim. -/
theorem denial_aborts_without_session (cwd : String) (registry : TerminalRegistry)
    (env : ExecEnv) (command : String) (customCwd : Option String)
    (modifySomething background : Bool) (timeout : Int)
    (hconfirm : (modifySomething || env.confirmNonDestructiveCommands) = true)
    (hdeny : env.userResponse ≠ "Approve") :
    (ExecuteCommandTool.execute cwd registry env command customCwd modifySomething background
        timeout).events = [ExecEvent.askConfirmation command] ∧
    (ExecuteCommandTool.execute cwd registry env command customCwd modifySomething background
        timeout).registry = registry ∧
    (∀ d, ExecEvent.acquireSession d ∉
        (ExecuteCommandTool.execute cwd registry env command customCwd modifySomething background
          timeout).events) ∧
    (∀ c, ExecEvent.runCommand c ∉
        (ExecuteCommandTool.execute cwd registry env command customCwd modifySomething background
          timeout).events) ∧
    (ExecuteCommandTool.execute cwd registry env command customCwd modifySomething background
        timeout).response.text
      = "Command execution was denied by the user. " ++
          (if env.userResponse ≠ "Deny" then "Feedback: " ++ env.userResponse else "") ∧
    (env.userResponse ≠ "Deny" →
      containsStr
        (ExecuteCommandTool.execute cwd registry env command customCwd modifySomething
          background timeout).response.text
        env.userResponse) := by
  have hx : ExecuteCommandTool.execute cwd registry env command customCwd modifySomething
      background timeout
    = { events := [ExecEvent.askConfirmation command], registry := registry,
        userRejected := false,
        response := formatResponse.toolResult (deniedText env.userResponse) } := by
    unfold ExecuteCommandTool.execute
    simp [hconfirm, hdeny]
  rw [hx]
  refine ⟨rfl, rfl, by simp, by simp, rfl, ?_⟩
  intro hfb
  refine ⟨"Command execution was denied by the user. " ++ "Feedback: ", "", ?_⟩
  simp [formatResponse.toolResult, deniedText, hfb, String.append_assoc]
  rw [← String.append_assoc]
  simp

/-- Witness for C5 at the spec scenario: `rm -rf tmp` denied with feedback "too risky". -/
theorem denial_aborts_without_session_witness :
    ((true || (⟨false, "too risky", [], false⟩ : ExecEnv).confirmNonDestructiveCommands) = true ∧
      (⟨false, "too risky", [], false⟩ : ExecEnv).userResponse ≠ "Approve") ∧
    ((ExecuteCommandTool.execute "/workspace" ⟨[], 0⟩ ⟨false, "too risky", [], false⟩
        "rm -rf tmp" none true false 300000).events
      = [ExecEvent.askConfirmation "rm -rf tmp"] ∧
    (ExecuteCommandTool.execute "/workspace" ⟨[], 0⟩ ⟨false, "too risky", [], false⟩
        "rm -rf tmp" none true false 300000).registry = ⟨[], 0⟩ ∧
    (∀ d, ExecEvent.acquireSession d ∉
        (ExecuteCommandTool.execute "/workspace" ⟨[], 0⟩ ⟨false, "too risky", [], false⟩
          "rm -rf tmp" none true false 300000).events) ∧
    (∀ c, ExecEvent.runCommand c ∉
        (ExecuteCommandTool.execute "/workspace" ⟨[], 0⟩ ⟨false, "too risky", [], false⟩
          "rm -rf tmp" none true false 300000).events) ∧
    (ExecuteCommandTool.execute "/workspace" ⟨[], 0⟩ ⟨false, "too risky", [], false⟩
        "rm -rf tmp" none true false 300000).response.text
      = "Command execution was denied by the user. " ++
          (if (⟨false, "too risky", [], false⟩ : ExecEnv).userResponse ≠ "Deny"
            then "Feedback: " ++ (⟨false, "too risky", [], false⟩ : ExecEnv).userResponse
            else "") ∧
    ((⟨false, "too risky", [], false⟩ : ExecEnv).userResponse ≠ "Deny" →
      containsStr
        (ExecuteCommandTool.execute "/workspace" ⟨[], 0⟩ ⟨false, "too risky", [], false⟩
          "rm -rf tmp" none true false 300000).response.text
        "too risky")) :=
  ⟨⟨rfl, by decide⟩,
    denial_aborts_without_session "/workspace" ⟨[], 0⟩ ⟨false, "too risky", [], false⟩
      "rm -rf tmp" none true false 300000 rfl (by decide)⟩

/-- C6: when the command completes within the timeout, the result text is the completion
message whose output section is exactly the emitted lines joined by newlines, trimmed — in
order, none dropped, none duplicated — and when the trimmed output is empty the text has no
output section at all. -/
theorem completed_output_joined_in_order (cwd : String) (registry : TerminalRegistry)
    (confirmSetting : Bool) (userResponse : String) (lines : List String)
    (command : String) (customCwd : Option String) (modifySomething : Bool) (timeout : Int)
    (happrove : (modifySomething || confirmSetting) = true → userResponse = "Approve") :
    (ExecuteCommandTool.execute cwd registry ⟨confirmSetting, userResponse, lines, true⟩ command
        customCwd modifySomething false timeout).response.text
      = "Command executed in terminal (id: " ++
          toString (TerminalManager.getOrCreateTerminal registry
            (effectiveCwd cwd customCwd)).1.id ++ ")." ++
          (if strTrim (joinWithNewlines lines) ≠ ""
            then "\nOutput:\n" ++ strTrim (joinWithNewlines lines) else "") ∧
    (strTrim (joinWithNewlines lines) ≠ "" →
      containsStr
        (ExecuteCommandTool.execute cwd registry ⟨confirmSetting, userResponse, lines, true⟩
          command customCwd modifySomething false timeout).response.text
        (strTrim (joinWithNewlines lines))) ∧
    (strTrim (joinWithNewlines lines) = "" →
      (ExecuteCommandTool.execute cwd registry ⟨confirmSetting, userResponse, lines, true⟩
          command customCwd modifySomething false timeout).response.text
        = "Command executed in terminal (id: " ++
            toString (TerminalManager.getOrCreateTerminal registry
              (effectiveCwd cwd customCwd)).1.id ++ ").") := by
  have hx : (ExecuteCommandTool.execute cwd registry ⟨confirmSetting, userResponse, lines, true⟩
      command customCwd modifySomething false timeout).response.text
    = completedText (TerminalManager.getOrCreateTerminal registry
        (effectiveCwd cwd customCwd)).1.id (strTrim (joinWithNewlines lines)) := by
    rw [execute_approved_eq cwd registry ⟨confirmSetting, userResponse, lines, true⟩ command
      customCwd modifySomething false timeout happrove, runPhase_foreground_eval]
    simp [formatResponse.toolResult, strTrim_joinedOutput]
  rw [hx]
  refine ⟨rfl, ?_, ?_⟩
  · intro hne
    refine ⟨"Command executed in terminal (id: " ++
      toString (TerminalManager.getOrCreateTerminal registry
        (effectiveCwd cwd customCwd)).1.id ++ ")." ++ "\nOutput:\n", "", ?_⟩
    simp [completedText, hne, String.append_assoc]
    congr 2
  · intro h0
    simp [completedText, h0]

/-- Witness for C6 at the spec scenario `{command: "echo hi", modifySomething: false}` with a
single output line "hi". -/
theorem completed_output_joined_in_order_witness :
    ((false || false) = true → ("Approve" : String) = "Approve") ∧
    ((ExecuteCommandTool.execute "/workspace" ⟨[], 0⟩ ⟨false, "Approve", ["hi"], true⟩ "echo hi"
        none false false 300000).response.text
      = "Command executed in terminal (id: " ++
          toString (TerminalManager.getOrCreateTerminal ⟨[], 0⟩
            (effectiveCwd "/workspace" none)).1.id ++ ")." ++
          (if strTrim (joinWithNewlines ["hi"]) ≠ ""
            then "\nOutput:\n" ++ strTrim (joinWithNewlines ["hi"]) else "") ∧
    (strTrim (joinWithNewlines ["hi"]) ≠ "" →
      containsStr
        (ExecuteCommandTool.execute "/workspace" ⟨[], 0⟩ ⟨false, "Approve", ["hi"], true⟩
          "echo hi" none false false 300000).response.text
        (strTrim (joinWithNewlines ["hi"]))) ∧
    (strTrim (joinWithNewlines ["hi"]) = "" →
      (ExecuteCommandTool.execute "/workspace" ⟨[], 0⟩ ⟨false, "Approve", ["hi"], true⟩
          "echo hi" none false false 300000).response.text
        = "Command executed in terminal (id: " ++
            toString (TerminalManager.getOrCreateTerminal ⟨[], 0⟩
              (effectiveCwd "/workspace" none)).1.id ++ ").")) :=
  ⟨fun h => absurd h (by decide),
    completed_output_joined_in_order "/workspace" ⟨[], 0⟩ false "Approve" ["hi"] "echo hi"
      none false 300000 (fun h => absurd h (by decide))⟩

/-- C7: when the command has not completed once the race settles, the result text is the
still-running message: it names the terminal, embeds the partial output accumulated so far,
instructs the caller to poll with the terminal id, and carries the timeout value exactly when
the timeout differs from the default 300000 ms. -/
theorem still_running_report (cwd : String) (registry : TerminalRegistry)
    (confirmSetting : Bool) (userResponse : String) (lines : List String)
    (command : String) (customCwd : Option String) (modifySomething : Bool) (timeout : Int)
    (happrove : (modifySomething || confirmSetting) = true → userResponse = "Approve") :
    (ExecuteCommandTool.execute cwd registry ⟨confirmSetting, userResponse, lines, false⟩
        command customCwd modifySomething false timeout).response.text
      = "Command is still running in terminal (id: " ++
          toString (TerminalManager.getOrCreateTerminal registry
            (effectiveCwd cwd customCwd)).1.id ++ ")" ++
          (if timeout ≠ 300000 then " (timeout: " ++ toString timeout ++ "ms)" else "") ++
          "." ++
          (if strTrim (joinWithNewlines lines) ≠ ""
            then "\nHere\x27s the output so far:\n" ++ strTrim (joinWithNewlines lines)
            else "") ++
          "\n\nYou can check for more output later using the get_terminal_output tool with this terminal id." ∧
    (strTrim (joinWithNewlines lines) ≠ "" →
      containsStr
        (ExecuteCommandTool.execute cwd registry ⟨confirmSetting, userResponse, lines, false⟩
          command customCwd modifySomething false timeout).response.text
        (strTrim (joinWithNewlines lines))) ∧
    containsStr
      (ExecuteCommandTool.execute cwd registry ⟨confirmSetting, userResponse, lines, false⟩
        command customCwd modifySomething false timeout).response.text
      "You can check for more output later using the get_terminal_output tool with this terminal id." := by
  have hx : (ExecuteCommandTool.execute cwd registry
      ⟨confirmSetting, userResponse, lines, false⟩ command customCwd modifySomething false
      timeout).response.text
    = stillRunningText (TerminalManager.getOrCreateTerminal registry
        (effectiveCwd cwd customCwd)).1.id timeout (strTrim (joinWithNewlines lines)) := by
    rw [execute_approved_eq cwd registry ⟨confirmSetting, userResponse, lines, false⟩ command
      customCwd modifySomething false timeout happrove, runPhase_foreground_eval]
    simp [formatResponse.toolResult, strTrim_joinedOutput]
  rw [hx]
  refine ⟨rfl, ?_, ?_⟩
  · intro hne
    refine ⟨"Command is still running in terminal (id: " ++
      toString (TerminalManager.getOrCreateTerminal registry
        (effectiveCwd cwd customCwd)).1.id ++ ")" ++
      (if timeout ≠ 300000 then " (timeout: " ++ toString timeout ++ "ms)" else "") ++
      "." ++ "\nHere\x27s the output so far:\n",
      "\n\nYou can check for more output later using the get_terminal_output tool with this terminal id.",
      ?_⟩
    simp [stillRunningText, hne, String.append_assoc]
    congr 4
  · refine ⟨"Command is still running in terminal (id: " ++
      toString (TerminalManager.getOrCreateTerminal registry
        (effectiveCwd cwd customCwd)).1.id ++ ")" ++
      (if timeout ≠ 300000 then " (timeout: " ++ toString timeout ++ "ms)" else "") ++
      "." ++
      (if strTrim (joinWithNewlines lines) ≠ ""
        then "\nHere\x27s the output so far:\n" ++ strTrim (joinWithNewlines lines) else "") ++
      "\n\n", "", ?_⟩
    simp [stillRunningText, String.append_assoc]

/-- Witness for C7: `sleep 600` with a 5000 ms timeout and one partial output line. -/
theorem still_running_report_witness :
    ((true || false) = true → ("Approve" : String) = "Approve") ∧
    ((ExecuteCommandTool.execute "/workspace" ⟨[], 0⟩ ⟨false, "Approve", ["partial"], false⟩
        "sleep 600" none true false 5000).response.text
      = "Command is still running in terminal (id: " ++
          toString (TerminalManager.getOrCreateTerminal ⟨[], 0⟩
            (effectiveCwd "/workspace" none)).1.id ++ ")" ++
          (if (5000 : Int) ≠ 300000 then " (timeout: " ++ toString (5000 : Int) ++ "ms)"
            else "") ++
          "." ++
          (if strTrim (joinWithNewlines ["partial"]) ≠ ""
            then "\nHere\x27s the output so far:\n" ++ strTrim (joinWithNewlines ["partial"])
            else "") ++
          "\n\nYou can check for more output later using the get_terminal_output tool with this terminal id." ∧
    (strTrim (joinWithNewlines ["partial"]) ≠ "" →
      containsStr
        (ExecuteCommandTool.execute "/workspace" ⟨[], 0⟩ ⟨false, "Approve", ["partial"], false⟩
          "sleep 600" none true false 5000).response.text
        (strTrim (joinWithNewlines ["partial"]))) ∧
    containsStr
      (ExecuteCommandTool.execute "/workspace" ⟨[], 0⟩ ⟨false, "Approve", ["partial"], false⟩
        "sleep 600" none true false 5000).response.text
      "You can check for more output later using the get_terminal_output tool with this terminal id.") :=
  ⟨fun _ => rfl,
    still_running_report "/workspace" ⟨[], 0⟩ false "Approve" ["partial"] "sleep 600" none
      true 5000 (fun _ => rfl)⟩
